import Mathlib

/-!
# SecureCloud AI Guardian — verification of the monitoring/response core

Shallow embedding of `src/main.py` (SecureCloud AI Guardian).  Timestamps
are modelled as integers counting hours, so a `timedelta.days` computation
becomes a floor division by 24 and the dashboard's 24-hour window becomes a
difference of 24.  Python floats are modelled as rationals; the random
draws of the demo models and the generated UUIDs are passed in as explicit
parameters (a draw outcome, an injective id supply).
-/

namespace SecureCloud

/-- `CloudProvider` enum from `main.py`. -/
inductive CloudProvider where
  | aws
  | azure
  | gcp
  deriving DecidableEq

/-- `CloudResource` dataclass: identity, security groups, tags, last-accessed
timestamp (hours), and the mutable risk score. -/
structure CloudResource where
  id : String
  name : String
  type : String
  provider : CloudProvider
  region : String
  security_group_ids : List String
  tags : List (String × String)
  last_accessed : ℤ
  risk_score : ℚ := 0
  deriving DecidableEq

/-- `SecurityEvent` dataclass.  `raw_data` is an opaque string map, unused by
any logic modelled here. -/
structure SecurityEvent where
  id : String
  timestamp : ℤ
  event_type : String
  severity : String
  source_ip : String
  target_resource : String
  description : String
  provider : CloudProvider
  raw_data : List (String × String) := []
  ai_confidence : ℚ := 0
  is_anomaly : Bool := false
  deriving DecidableEq

/-- `AIModelMetrics` dataclass produced by a model health check. -/
structure AIModelMetrics where
  model_id : String
  accuracy : ℚ
  drift_score : ℚ
  last_training : ℤ
  prediction_confidence : ℚ
  adversarial_attempts : ℤ := 0
  deriving DecidableEq

/-- Association-list lookup, modelling Python `dict` key access. -/
def lookupAL {α : Type} (m : List (String × α)) (k : String) : Option α :=
  match m with
  | [] => none
  | (k', v) :: rest => if k' = k then some v else lookupAL rest k

/-- Association-list assignment, modelling Python `dict[k] = v`: replace the
binding if the key is present, append otherwise. -/
def insertAL {α : Type} (m : List (String × α)) (k : String) (v : α) :
    List (String × α) :=
  match m with
  | [] => [(k, v)]
  | (k', v') :: rest =>
      if k' = k then (k, v) :: rest else (k', v') :: insertAL rest k v

/-! ## Risk scorer (`_calculate_risk_score`, `_check_public_access`) -/

/-- `(datetime.now() - resource.last_accessed).days` with timestamps in
hours: floor division of the difference by 24. -/
def daysSinceAccess (now : ℤ) (r : CloudResource) : ℤ :=
  (now - r.last_accessed).fdiv 24

/-- Model of Python `str.lower()` (character-wise lowercasing), written as a
map over the character list so that the kernel can evaluate it. -/
def lower (s : String) : String :=
  String.mk (s.data.map Char.toLower)

/-- `_check_public_access`: 0.5 when any tag value is case-insensitively
`public` or `open`, else 0.0. -/
def _check_public_access (r : CloudResource) : ℚ :=
  if (r.tags.map Prod.snd).any
      (fun tag => lower tag == "public" || lower tag == "open")
  then 1/2 else 0

/-- The `risk_factors` list built by `_calculate_risk_score`: 0.3 when the
security-group list is empty, the public-access factor, 0.2 when more than
30 days passed since last access, and finally the AI model factor. -/
def riskFactors (now : ℤ) (r : CloudResource) (ai_risk : ℚ) : List ℚ :=
  (if r.security_group_ids = [] then [3/10] else [])
    ++ [_check_public_access r]
    ++ (if 30 < daysSinceAccess now r then [1/5] else [])
    ++ [ai_risk]

/-- `_calculate_risk_score`: sums the risk factors and caps at 1.0.  The AI
model call `assess_risk` may fail (raise); the exception propagates, so the
whole computation returns `none` in that case. -/
def _calculate_risk_score (now : ℤ) (assess_risk : CloudResource → Option ℚ)
    (r : CloudResource) : Option ℚ :=
  (assess_risk r).map (fun ai_risk => min (riskFactors now r ai_risk).sum 1)

/-- The concrete resource of the spec's worked example: no security groups,
a tag value "public", last accessed 45 days (1080 hours) before time 1080. -/
def exampleResource : CloudResource :=
  { id := "i-example"
    name := "example"
    type := "EC2Instance"
    provider := CloudProvider.aws
    region := "us-east-1"
    security_group_ids := []
    tags := [("Environment", "public")]
    last_accessed := 0 }

theorem exampleResource_public :
    _check_public_access exampleResource = 1/2 := by
  have hcond : (exampleResource.tags.map Prod.snd).any
      (fun tag => lower tag == "public" || lower tag == "open") = true := by
    decide
  simp [_check_public_access, hcond]

theorem check_public_access_nonneg (r : CloudResource) :
    0 ≤ _check_public_access r := by
  unfold _check_public_access
  split <;> norm_num

theorem check_public_access_le (r : CloudResource) :
    _check_public_access r ≤ 1/2 := by
  unfold _check_public_access
  split <;> norm_num

/-- C1: the risk score is the sum of the four independent factors capped at
1.0, always lies in [0, 1] when the model factor lies in [0, 0.5], and the
spec's worked example (no security groups, tag "public", 45 days since last
access, model factor 0.5) scores exactly 1.0. -/
theorem riskScore_sum_capped_bounded (now : ℤ) (r : CloudResource) (ai : ℚ)
    (h0 : 0 ≤ ai) (_h1 : ai ≤ 1/2) :
    (_calculate_risk_score now (fun _ => some ai) r
        = some (min ((if r.security_group_ids = [] then (3:ℚ)/10 else 0)
            + _check_public_access r
            + (if 30 < daysSinceAccess now r then (1:ℚ)/5 else 0) + ai) 1)
      ∧ ∀ s, _calculate_risk_score now (fun _ => some ai) r = some s →
          0 ≤ s ∧ s ≤ 1)
    ∧ _calculate_risk_score 1080 (fun _ => some (1/2)) exampleResource
        = some 1 := by
  constructor
  · constructor
    · simp only [_calculate_risk_score, Option.map_some', riskFactors]
      split <;> split <;>
        simp [List.sum_append, add_assoc]
    · intro s hs
      simp only [_calculate_risk_score, Option.map_some', Option.some.injEq] at hs
      subst hs
      have hpub0 := check_public_access_nonneg r
      refine ⟨le_min ?_ (by norm_num), min_le_right _ _⟩
      simp only [riskFactors, List.sum_append, List.sum_cons, List.sum_nil]
      split <;> split <;> simp only [List.sum_cons, List.sum_nil] <;> linarith
  · have hd : daysSinceAccess 1080 exampleResource = 45 := by decide
    have hsum : (riskFactors 1080 exampleResource (1/2)).sum = 3/2 := by
      simp only [riskFactors, hd, exampleResource_public]
      norm_num [exampleResource, List.sum_append]
    simp only [_calculate_risk_score, Option.map_some', Option.some.injEq, hsum]
    exact min_eq_right (by norm_num)

/-- Witness for C1: the model-factor hypotheses hold for the factor 1/2, and
applying the theorem to the spec's example resource evaluates the scorer to
exactly 1. -/
theorem riskScore_sum_capped_bounded_witness :
    _calculate_risk_score 1080 (fun _ => some (1/2)) exampleResource = some 1
      ∧ (0:ℚ) ≤ 1 ∧ (1:ℚ) ≤ 1 := by
  have h := riskScore_sum_capped_bounded 1080 exampleResource (1/2)
    (by norm_num) (by norm_num)
  exact ⟨h.2, h.1.2 1 h.2⟩

/-! ## Association-list laws shared by the stateful components -/

theorem lookupAL_insertAL {α : Type} (m : List (String × α)) (k k' : String)
    (v : α) :
    lookupAL (insertAL m k v) k' = if k = k' then some v else lookupAL m k' := by
  induction m with
  | nil => by_cases h : k = k' <;> simp [insertAL, lookupAL, h]
  | cons kv rest ih =>
      obtain ⟨k0, v0⟩ := kv
      by_cases h0 : k0 = k
      · subst h0
        by_cases h2 : k0 = k' <;> simp [insertAL, lookupAL, h2]
      · by_cases h1 : k0 = k' <;> by_cases h2 : k = k' <;>
          simp [insertAL, lookupAL, h0, h1, h2, ih] <;> simp_all [lookupAL]

/-! ## Behavioral anomaly detector (`BehavioralAnomalyDetector.is_anomaly`) -/

/-- Entry of the detector's `baseline_patterns` map:
`{"count": ..., "first_seen": ...}`. -/
structure BaselinePattern where
  count : ℕ
  first_seen : ℤ
  deriving DecidableEq

/-- `BehavioralAnomalyDetector.__init__`: empty baseline map and the (unused)
0.7 anomaly threshold. -/
structure BehavioralAnomalyDetector where
  baseline_patterns : List (String × BaselinePattern) := []
  anomaly_threshold : ℚ := 7/10

/-- `BehavioralAnomalyDetector.is_anomaly`.  The fallback
`np.random.random() > 0.8` is modelled by the explicit parameter
`random_draw` carrying that comparison's outcome.  Returns the
classification together with the updated detector state. -/
def is_anomaly (d : BehavioralAnomalyDetector) (e : SecurityEvent)
    (random_draw : Bool) : Bool × BehavioralAnomalyDetector :=
  let pattern_key := e.event_type ++ "_" ++ e.source_ip
  match lookupAL d.baseline_patterns pattern_key with
  | none =>
      (false,
        { d with
            baseline_patterns :=
              insertAL d.baseline_patterns pattern_key ⟨1, e.timestamp⟩ })
  | some bp =>
      let d' : BehavioralAnomalyDetector :=
        { d with
            baseline_patterns :=
              insertAL d.baseline_patterns pattern_key
                ⟨bp.count + 1, bp.first_seen⟩ }
      if e.event_type ∈ ["LOGIN_ATTEMPT"] ∧ e.severity = "CRITICAL" then
        (true, d')
      else (random_draw, d')

/-- A CRITICAL LOGIN_ATTEMPT event (used to probe the detector override). -/
def criticalLoginEvent : SecurityEvent :=
  { id := "ev-login", timestamp := 10, event_type := "LOGIN_ATTEMPT",
    severity := "CRITICAL", source_ip := "10.0.0.1", target_resource := "db",
    description := "login burst", provider := CloudProvider.aws }

/-- A low-severity, non-anomalous event. -/
def neutralEvent : SecurityEvent :=
  { id := "ev-neutral", timestamp := 3, event_type := "DATA_ACCESS",
    severity := "LOW", source_ip := "10.0.0.2", target_resource := "bucket",
    description := "object read", provider := CloudProvider.gcp }

/-- Detector state that has already seen the CRITICAL login event's key. -/
def seededDetector : BehavioralAnomalyDetector :=
  { baseline_patterns := [("LOGIN_ATTEMPT_10.0.0.1", ⟨1, 2⟩)] }

/-- C5 counterexample: on a never-seen `(eventType, source)` key, a CRITICAL
LOGIN_ATTEMPT event is classified NOT anomalous — the first-seen branch
returns `False` before the override is consulted — whichever way the random
fallback would have gone. -/
theorem criticalLogin_firstSeen_not_anomalous :
    (is_anomaly {} criticalLoginEvent true).1 = false
      ∧ (is_anomaly {} criticalLoginEvent false).1 = false :=
  ⟨rfl, rfl⟩

/-- C5 (amended): a CRITICAL LOGIN_ATTEMPT event is always classified
anomalous provided its `(eventType, source)` key is already present in the
baseline map; on the key's first occurrence it is classified not anomalous. -/
theorem criticalLogin_seenKey_anomalous (d : BehavioralAnomalyDetector)
    (e : SecurityEvent) (draw : Bool)
    (hseen : (lookupAL d.baseline_patterns
        (e.event_type ++ "_" ++ e.source_ip)).isSome = true)
    (htype : e.event_type = "LOGIN_ATTEMPT") (hsev : e.severity = "CRITICAL") :
    (is_anomaly d e draw).1 = true := by
  simp only [is_anomaly]
  cases hl : lookupAL d.baseline_patterns (e.event_type ++ "_" ++ e.source_ip) with
  | none => rw [hl] at hseen; simp at hseen
  | some bp => simp [hl, htype, hsev]

/-- Witness for the amended C5: on a detector that has seen the key, the
CRITICAL login event is flagged even with a non-anomalous random draw. -/
theorem criticalLogin_seenKey_anomalous_witness :
    (is_anomaly seededDetector criticalLoginEvent false).1 = true :=
  criticalLogin_seenKey_anomalous seededDetector criticalLoginEvent false
    rfl rfl rfl

/-- C6: on the first occurrence of an event's `(eventType, source)` key (and
outside the CRITICAL LOGIN_ATTEMPT override), `is_anomaly` returns `False`
and inserts the key with count 1 and the event's timestamp as first-seen. -/
theorem firstSeen_not_anomalous_inserts (d : BehavioralAnomalyDetector)
    (e : SecurityEvent) (draw : Bool)
    (hnew : lookupAL d.baseline_patterns
        (e.event_type ++ "_" ++ e.source_ip) = none)
    (_hover : ¬(e.event_type = "LOGIN_ATTEMPT" ∧ e.severity = "CRITICAL")) :
    (is_anomaly d e draw).1 = false
      ∧ lookupAL (is_anomaly d e draw).2.baseline_patterns
          (e.event_type ++ "_" ++ e.source_ip) = some ⟨1, e.timestamp⟩ := by
  constructor
  · simp [is_anomaly, hnew]
  · simp only [is_anomaly, hnew]
    rw [lookupAL_insertAL]
    simp

/-- Witness for C6: a fresh detector classifies the neutral event as not
anomalous and records its key with count 1 and first-seen 3. -/
theorem firstSeen_not_anomalous_inserts_witness :
    (is_anomaly {} neutralEvent true).1 = false
      ∧ lookupAL (is_anomaly {} neutralEvent true).2.baseline_patterns
          (neutralEvent.event_type ++ "_" ++ neutralEvent.source_ip)
          = some ⟨1, neutralEvent.timestamp⟩ :=
  firstSeen_not_anomalous_inserts {} neutralEvent true rfl (by decide)

/-! ## Response orchestrator (`AutomatedResponseOrchestrator._execute_response`) -/

/-- Recorded incident response: source event id, ordered action names, the
completion timestamp, and the completion status. -/
structure IncidentResponse where
  event_id : String
  actions : List String
  timestamp : ℤ
  status : String
  deriving DecidableEq

/-- Action-selection policy of `_execute_response`: CRITICAL events get the
isolation/notification/ticket sequence, otherwise anomalies get the
monitoring/notification pair, otherwise no actions. -/
def responseActions (e : SecurityEvent) : List String :=
  if e.severity = "CRITICAL" then
    ["isolate_resource", "notify_security_team", "create_incident_ticket"]
  else if e.is_anomaly then ["increase_monitoring", "notify_admin"]
  else []

/-- `_execute_response`: select the actions, execute them, and record the
response under a fresh response id with status "completed" and the
completion time.  The recording happens unconditionally, also when the
action list is empty. -/
def _execute_response (now : ℤ) (response_id : String) (e : SecurityEvent)
    (active_responses : List (String × IncidentResponse)) :
    List (String × IncidentResponse) :=
  insertAL active_responses response_id
    { event_id := e.id, actions := responseActions e,
      timestamp := now, status := "completed" }

/-- C2 counterexample: an event that is neither CRITICAL nor an anomaly still
gets an `IncidentResponse` recorded (with an empty action list), so "no
response is recorded" fails. -/
theorem neutral_event_records_response :
    _execute_response 0 "resp-1" neutralEvent []
        = [("resp-1",
            { event_id := "ev-neutral", actions := [], timestamp := 0,
              status := "completed" })]
      ∧ _execute_response 0 "resp-1" neutralEvent [] ≠ [] := by
  constructor
  · rfl
  · intro h
    simp [_execute_response, insertAL] at h

/-- C2 (amended): for every event processed by the orchestrator, a response
is recorded under the fresh response id with status "completed" and the
completion time; its actions are exactly the CRITICAL triple for CRITICAL
events, the anomaly pair for non-CRITICAL anomalies, and the empty list
(rather than no record at all) for all other events; and every newly
recorded response carries status "completed" and the completion timestamp. -/
theorem executeResponse_policy (now : ℤ) (rid : String) (e : SecurityEvent)
    (active : List (String × IncidentResponse)) :
    _execute_response now rid e active
        = insertAL active rid
            { event_id := e.id, actions := responseActions e,
              timestamp := now, status := "completed" }
      ∧ (e.severity = "CRITICAL" →
          responseActions e
            = ["isolate_resource", "notify_security_team",
               "create_incident_ticket"])
      ∧ (e.severity ≠ "CRITICAL" → e.is_anomaly = true →
          responseActions e = ["increase_monitoring", "notify_admin"])
      ∧ (e.severity ≠ "CRITICAL" → e.is_anomaly = false →
          responseActions e = [])
      ∧ ∀ rid' r, lookupAL (_execute_response now rid e active) rid' = some r →
          lookupAL active rid' = some r
            ∨ (r.status = "completed" ∧ r.timestamp = now
                ∧ r.event_id = e.id ∧ r.actions = responseActions e) := by
  refine ⟨rfl, ?_, ?_, ?_, ?_⟩
  · intro h; simp [responseActions, h]
  · intro h ha; simp [responseActions, h, ha]
  · intro h ha; simp [responseActions, h, ha]
  · intro rid' r hr
    rw [_execute_response, lookupAL_insertAL] at hr
    by_cases hid : rid = rid'
    · right
      rw [if_pos hid] at hr
      cases hr
      exact ⟨rfl, rfl, rfl, rfl⟩
    · left
      rwa [if_neg hid] at hr

/-- Witness for the amended C2: the CRITICAL login event gets the three
ordered actions, the anomalous variant of the neutral event gets the two
monitoring actions, and the neutral event itself gets the empty list. -/
theorem executeResponse_policy_witness :
    responseActions criticalLoginEvent
        = ["isolate_resource", "notify_security_team",
           "create_incident_ticket"]
      ∧ responseActions { neutralEvent with is_anomaly := true }
          = ["increase_monitoring", "notify_admin"]
      ∧ responseActions neutralEvent = [] := by
  refine ⟨(executeResponse_policy 0 "r1" criticalLoginEvent []).2.1 rfl,
    (executeResponse_policy 0 "r2" { neutralEvent with is_anomaly := true }
        []).2.2.1 (by decide) rfl,
    (executeResponse_policy 0 "r3" neutralEvent []).2.2.2.1 (by decide) rfl⟩

/-! ## Bounded event history (`self.security_events = deque(maxlen=10000)`) -/

/-- The configured capacity of the Guardian's event history. -/
def historyCapacity : ℕ := 10000

/-- One append to a `deque(maxlen=cap)`: add on the right and, when the
capacity is exceeded, evict the oldest (leftmost) entry. -/
def appendEvent (cap : ℕ) (hist : List SecurityEvent) (e : SecurityEvent) :
    List SecurityEvent :=
  let h := hist ++ [e]
  if cap < h.length then h.tail else h

/-- A sequence of appends to the bounded history. -/
def appendEvents (cap : ℕ) (hist : List SecurityEvent)
    (es : List SecurityEvent) : List SecurityEvent :=
  es.foldl (appendEvent cap) hist

theorem appendEvent_eq_drop (cap : ℕ) (hist : List SecurityEvent)
    (e : SecurityEvent) (h : hist.length ≤ cap) :
    appendEvent cap hist e = (hist ++ [e]).drop (hist.length + 1 - cap) := by
  simp only [appendEvent]
  split
  · next hlt =>
      have h1 : hist.length + 1 - cap = 1 := by
        simp only [List.length_append, List.length_cons, List.length_nil] at hlt
        omega
      rw [h1, List.drop_one]
  · next hge =>
      have h0 : hist.length + 1 - cap = 0 := by
        simp only [not_lt, List.length_append, List.length_cons,
          List.length_nil] at hge
        omega
      rw [h0, List.drop_zero]

theorem length_appendEvent (cap : ℕ) (hist : List SecurityEvent)
    (e : SecurityEvent) (h : hist.length ≤ cap) :
    (appendEvent cap hist e).length ≤ cap := by
  rw [appendEvent_eq_drop cap hist e h]
  simp only [List.length_drop, List.length_append, List.length_cons,
    List.length_nil]
  omega

theorem length_appendEvents (cap : ℕ) (hist es : List SecurityEvent)
    (h : hist.length ≤ cap) : (appendEvents cap hist es).length ≤ cap := by
  induction es generalizing hist with
  | nil => exact h
  | cons e es ih => exact ih _ (length_appendEvent cap hist e h)

theorem appendEvents_eq_drop (cap : ℕ) (hist es : List SecurityEvent)
    (h : hist.length ≤ cap) :
    appendEvents cap hist es
      = (hist ++ es).drop (hist.length + es.length - cap) := by
  induction es generalizing hist with
  | nil =>
      simp only [appendEvents, List.foldl_nil, List.append_nil,
        List.length_nil, Nat.add_zero]
      rw [Nat.sub_eq_zero_of_le h, List.drop_zero]
  | cons e es ih =>
      have hstep : appendEvents cap hist (e :: es)
          = appendEvents cap (appendEvent cap hist e) es := rfl
      rw [hstep, ih _ (length_appendEvent cap hist e h),
        appendEvent_eq_drop cap hist e h,
        ← List.drop_append_of_le_length (by simp),
        List.drop_drop]
      congr 1
      · simp only [List.length_drop, List.length_append, List.length_cons,
          List.length_nil]
        omega
      · simp

theorem mem_of_getLast? {α : Type} {l : List α} {a : α}
    (h : l.getLast? = some a) : a ∈ l := by
  rcases List.mem_getLast?_eq_getLast (Option.mem_def.mpr h) with ⟨hne, heq⟩
  rw [heq]
  exact List.getLast_mem hne

/-- C4: the event history never exceeds the configured capacity after any
sequence of appends, and eviction is FIFO: after appending capacity + 1
pairwise-fresh events to an empty history, the first-appended event is
absent and the last-appended event is present. -/
theorem history_bounded_fifo (hist es : List SecurityEvent)
    (hbound : hist.length ≤ historyCapacity) :
    (appendEvents historyCapacity hist es).length ≤ historyCapacity
      ∧ ∀ e rest, hist = [] → es = e :: rest →
          rest.length = historyCapacity → e ∉ rest →
          e ∉ appendEvents historyCapacity hist es
            ∧ ∀ l, es.getLast? = some l →
                l ∈ appendEvents historyCapacity hist es := by
  refine ⟨length_appendEvents _ _ _ hbound, ?_⟩
  rintro e rest rfl rfl hlen hnot
  have hres : appendEvents historyCapacity [] (e :: rest) = rest := by
    rw [appendEvents_eq_drop _ _ _ (by simp)]
    simp only [List.nil_append, List.length_nil, List.length_cons, hlen]
    have h1 : 0 + (historyCapacity + 1) - historyCapacity = 1 := by omega
    rw [h1, List.drop_one]
    rfl
  rw [hres]
  refine ⟨hnot, ?_⟩
  intro l hl
  cases rest with
  | nil => simp [historyCapacity] at hlen
  | cons r rest' =>
      rw [List.getLast?_cons_cons] at hl
      exact mem_of_getLast? hl

/-- A family of pairwise-distinct events (distinguished by timestamp). -/
def indexedEvent (i : ℕ) : SecurityEvent :=
  { neutralEvent with id := "ev-" ++ toString i, timestamp := (i : ℤ) }

/-- The events `indexedEvent s, ..., indexedEvent (s + n - 1)` in order. -/
def indexedEvents : ℕ → ℕ → List SecurityEvent
  | _, 0 => []
  | s, n + 1 => indexedEvent s :: indexedEvents (s + 1) n

theorem length_indexedEvents (s n : ℕ) : (indexedEvents s n).length = n := by
  induction n generalizing s with
  | zero => rfl
  | succ n ih => simp [indexedEvents, ih]

theorem timestamp_ge_of_mem_indexedEvents {e : SecurityEvent} (s n : ℕ) :
    e ∈ indexedEvents s n → (s : ℤ) ≤ e.timestamp := by
  induction n generalizing s with
  | zero => intro h; simp [indexedEvents] at h
  | succ n ih =>
      intro h
      rcases (List.mem_cons).mp h with h1 | h2
      · subst h1; simp [indexedEvent]
      · have := ih (s + 1) h2
        push_cast at this ⊢
        omega

theorem getLast?_indexedEvents (s n : ℕ) :
    (indexedEvents s (n + 1)).getLast? = some (indexedEvent (s + n)) := by
  induction n generalizing s with
  | zero => simp [indexedEvents, List.getLast?]
  | succ n ih =>
      have hstep : indexedEvents s (n + 2)
          = indexedEvent s :: indexedEvents (s + 1) (n + 1) := rfl
      rw [hstep]
      have htail : indexedEvents (s + 1) (n + 1)
          = indexedEvent (s + 1) :: indexedEvents (s + 2) n := rfl
      rw [htail, List.getLast?_cons_cons, ← htail, ih]
      have : s + 1 + n = s + (n + 1) := by omega
      rw [this]

/-- Witness for C4: with capacity 10000, appending the 10001 indexed events
to the empty history evicts the first and keeps the last. -/
theorem history_bounded_fifo_witness :
    indexedEvent 0
        ∉ appendEvents historyCapacity []
            (indexedEvents 0 (historyCapacity + 1))
      ∧ indexedEvent historyCapacity
          ∈ appendEvents historyCapacity []
              (indexedEvents 0 (historyCapacity + 1)) := by
  have hsplit : indexedEvents 0 (historyCapacity + 1)
      = indexedEvent 0 :: indexedEvents 1 historyCapacity := rfl
  have hnot : indexedEvent 0 ∉ indexedEvents 1 historyCapacity := by
    intro h
    have := timestamp_ge_of_mem_indexedEvents 1 historyCapacity h
    simp [indexedEvent] at this
  have h := history_bounded_fifo [] (indexedEvents 0 (historyCapacity + 1))
    (by simp)
  have h2 := h.2 (indexedEvent 0) (indexedEvents 1 historyCapacity) rfl hsplit
    (length_indexedEvents 1 historyCapacity) hnot
  refine ⟨h2.1, h2.2 (indexedEvent historyCapacity) ?_⟩
  rw [getLast?_indexedEvents 0 historyCapacity]
  rw [Nat.zero_add]

/-! ## Threat intelligence (`ThreatIntelligence.analyze_patterns` and the
promotion loop of `_generate_threat_intelligence`) -/

/-- Pattern dictionary emitted by `analyze_patterns`. -/
structure ThreatPattern where
  pattern_id : String
  pattern_type : String
  confidence : ℚ
  event_count : ℕ
  description : String

/-- Event types in first-occurrence order: the key order of the
`defaultdict(list)` grouping in `analyze_patterns`. -/
def eventTypesInOrder (events : List SecurityEvent) : List String :=
  events.foldl
    (fun acc e => if e.event_type ∈ acc then acc else acc ++ [e.event_type]) []

/-- Size of the group of one event type. -/
def countType (events : List SecurityEvent) (t : String) : ℕ :=
  (events.filter (fun e => e.event_type == t)).length

/-- Emission loop of `analyze_patterns` over the group keys, threading the
counter of the fresh uuid4 supply `uuid`. -/
def analyzeAux (uuid : ℕ → String) (events : List SecurityEvent) :
    List String → ℕ → List ThreatPattern
  | [], _ => []
  | t :: ts, i =>
      if 3 < countType events t then
        { pattern_id := uuid i, pattern_type := t,
          confidence := min ((countType events t : ℚ) * (1/10)) (95/100),
          event_count := countType events t,
          description := "Elevated " ++ t ++ " activity detected" }
          :: analyzeAux uuid events ts (i + 1)
      else analyzeAux uuid events ts i

/-- `ThreatIntelligence.analyze_patterns`: group events by type and emit one
pattern per group with more than 3 members, with confidence
min(size × 0.1, 0.95). -/
def analyze_patterns (uuid : ℕ → String) (events : List SecurityEvent) :
    List ThreatPattern :=
  analyzeAux uuid events (eventTypesInOrder events) 0

/-- The promotion loop of `_generate_threat_intelligence`:
`active_threats[pattern_id] = pattern` for every pattern with
confidence > 0.8. -/
def promoteThreats (active : List (String × ThreatPattern))
    (ps : List ThreatPattern) : List (String × ThreatPattern) :=
  ps.foldl
    (fun m p =>
      if (8:ℚ)/10 < p.confidence then insertAL m p.pattern_id p else m)
    active

theorem mem_eventTypesFold (events : List SecurityEvent) (acc : List String)
    (t : String) :
    t ∈ events.foldl
        (fun acc e =>
          if e.event_type ∈ acc then acc else acc ++ [e.event_type]) acc
      ↔ t ∈ acc ∨ ∃ e ∈ events, e.event_type = t := by
  induction events generalizing acc with
  | nil => simp
  | cons e es ih =>
      simp only [List.foldl_cons]
      rw [ih]
      by_cases h : e.event_type ∈ acc
      · simp only [if_pos h]
        constructor
        · rintro (h1 | ⟨x, hx, rfl⟩)
          · exact Or.inl h1
          · exact Or.inr ⟨x, List.mem_cons_of_mem e hx, rfl⟩
        · rintro (h1 | ⟨x, hx, rfl⟩)
          · exact Or.inl h1
          · rcases List.mem_cons.mp hx with rfl | hx'
            · exact Or.inl h
            · exact Or.inr ⟨x, hx', rfl⟩
      · simp only [if_neg h, List.mem_append, List.mem_singleton]
        constructor
        · rintro ((h1 | rfl) | ⟨x, hx, rfl⟩)
          · exact Or.inl h1
          · exact Or.inr ⟨e, List.mem_cons_self e es, rfl⟩
          · exact Or.inr ⟨x, List.mem_cons_of_mem e hx, rfl⟩
        · rintro (h1 | ⟨x, hx, rfl⟩)
          · exact Or.inl (Or.inl h1)
          · rcases List.mem_cons.mp hx with rfl | hx'
            · exact Or.inl (Or.inr rfl)
            · exact Or.inr ⟨x, hx', rfl⟩

theorem nodup_eventTypesFold (events : List SecurityEvent) (acc : List String)
    (hacc : acc.Nodup) :
    (events.foldl
        (fun acc e =>
          if e.event_type ∈ acc then acc else acc ++ [e.event_type])
        acc).Nodup := by
  induction events generalizing acc with
  | nil => exact hacc
  | cons e es ih =>
      simp only [List.foldl_cons]
      apply ih
      by_cases h : e.event_type ∈ acc
      · simpa [h] using hacc
      · simp only [if_neg h, List.nodup_append, List.nodup_cons,
          List.not_mem_nil, not_false_iff, List.nodup_nil, and_true, true_and]
        exact ⟨hacc, by simpa [List.disjoint_singleton] using h⟩

theorem analyzeAux_map_type (uuid : ℕ → String) (events : List SecurityEvent)
    (ts : List String) :
    ∀ i, (analyzeAux uuid events ts i).map (fun p => p.pattern_type)
      = ts.filter (fun t => decide (3 < countType events t)) := by
  induction ts with
  | nil => intro i; rfl
  | cons t ts ih =>
      intro i
      by_cases h : 3 < countType events t
      · simp [analyzeAux, h, ih]
      · simp [analyzeAux, h, ih]

theorem analyzeAux_mem (uuid : ℕ → String) (events : List SecurityEvent)
    (ts : List String) :
    ∀ i p, p ∈ analyzeAux uuid events ts i →
      p.confidence
          = min ((countType events p.pattern_type : ℚ) * (1/10)) (95/100)
        ∧ p.event_count = countType events p.pattern_type
        ∧ 3 < countType events p.pattern_type
        ∧ ∃ j, i ≤ j ∧ p.pattern_id = uuid j := by
  induction ts with
  | nil => intro i p hp; simp [analyzeAux] at hp
  | cons t ts ih =>
      intro i p hp
      by_cases h : 3 < countType events t
      · rw [analyzeAux, if_pos h] at hp
        rcases List.mem_cons.mp hp with rfl | hp'
        · exact ⟨rfl, rfl, h, i, le_refl i, rfl⟩
        · obtain ⟨c1, c2, c3, j, hj, hid⟩ := ih (i + 1) p hp'
          exact ⟨c1, c2, c3, j, by omega, hid⟩
      · rw [analyzeAux, if_neg h] at hp
        exact ih i p hp

theorem analyzeAux_ids_nodup (uuid : ℕ → String)
    (huuid : Function.Injective uuid) (events : List SecurityEvent)
    (ts : List String) :
    ∀ i, ((analyzeAux uuid events ts i).map (fun p => p.pattern_id)).Nodup := by
  induction ts with
  | nil => intro i; simp [analyzeAux]
  | cons t ts ih =>
      intro i
      by_cases h : 3 < countType events t
      · rw [analyzeAux, if_pos h]
        simp only [List.map_cons, List.nodup_cons]
        refine ⟨?_, ih (i + 1)⟩
        intro hmem
        simp only [List.mem_map] at hmem
        obtain ⟨p, hp, hid⟩ := hmem
        obtain ⟨_, _, _, j, hj, hpid⟩ := analyzeAux_mem uuid events ts (i + 1) p hp
        rw [hpid] at hid
        have := huuid hid
        omega
      · rw [analyzeAux, if_neg h]
        exact ih i

theorem insertAL_fresh {α : Type} (m : List (String × α)) (k : String) (v : α)
    (h : ∀ q ∈ m, k ≠ q.1) :
    insertAL m k v = m ++ [(k, v)] := by
  induction m with
  | nil => rfl
  | cons q rest ih =>
      obtain ⟨k0, v0⟩ := q
      have hk : ¬k0 = k := fun he => h (k0, v0) (List.mem_cons_self _ _) he.symm
      simp [insertAL, hk, ih (fun q hq => h q (List.mem_cons_of_mem _ hq))]

theorem promoteThreats_eq (ps : List ThreatPattern) :
    ∀ active : List (String × ThreatPattern),
    (∀ p ∈ ps, ∀ q ∈ active, p.pattern_id ≠ q.1) →
    (ps.map (fun p => p.pattern_id)).Nodup →
    promoteThreats active ps
      = active
        ++ (ps.filter (fun p => decide ((8:ℚ)/10 < p.confidence))).map
            (fun p => (p.pattern_id, p)) := by
  induction ps with
  | nil => intro active _ _; simp [promoteThreats]
  | cons p ps ih =>
      intro active hfresh hnd
      simp only [List.map_cons, List.nodup_cons] at hnd
      simp only [promoteThreats, List.foldl_cons]
      by_cases h : (8:ℚ)/10 < p.confidence
      · rw [if_pos h,
          insertAL_fresh active p.pattern_id p
            (hfresh p (List.mem_cons_self _ _))]
        have hfresh' : ∀ r ∈ ps, ∀ q ∈ active ++ [(p.pattern_id, p)],
            r.pattern_id ≠ q.1 := by
          intro r hr q hq
          rcases List.mem_append.mp hq with hq1 | hq2
          · exact hfresh r (List.mem_cons_of_mem _ hr) q hq1
          · rcases List.mem_singleton.mp hq2 with rfl
            intro he
            have he' : r.pattern_id = p.pattern_id := he
            apply hnd.1
            rw [← he']
            exact List.mem_map_of_mem (fun p => p.pattern_id) hr
        have := ih (active ++ [(p.pattern_id, p)]) hfresh' hnd.2
        rw [promoteThreats] at this
        rw [this]
        simp [List.filter_cons, h, List.append_assoc]
      · rw [if_neg h]
        have := ih active
          (fun r hr => hfresh r (List.mem_cons_of_mem _ hr)) hnd.2
        rw [promoteThreats] at this
        rw [this]
        simp [List.filter_cons, h]

/-- Concrete injective id supply standing in for the uuid4 calls of the
examples: the id of the i-th pattern is the string of i letters p. -/
def uuidNat (i : ℕ) : String := String.mk (List.replicate i 'p')

/-- A CONFIG_CHANGE event family for the spec's 4-event/9-event examples. -/
def ccEvent (i : ℕ) : SecurityEvent :=
  { neutralEvent with
      id := "cc-" ++ toString i
      timestamp := (i : ℤ)
      event_type := "CONFIG_CHANGE" }

/-- Four CONFIG_CHANGE events and no events of any other type. -/
def ccEvents4 : List SecurityEvent :=
  [ccEvent 0, ccEvent 1, ccEvent 2, ccEvent 3]

/-- Nine CONFIG_CHANGE events and no events of any other type. -/
def ccEvents9 : List SecurityEvent :=
  [ccEvent 0, ccEvent 1, ccEvent 2, ccEvent 3, ccEvent 4, ccEvent 5,
   ccEvent 6, ccEvent 7, ccEvent 8]

theorem eventTypes_cc4 : eventTypesInOrder ccEvents4 = ["CONFIG_CHANGE"] := by
  simp [eventTypesInOrder, ccEvents4, ccEvent]

theorem eventTypes_cc9 : eventTypesInOrder ccEvents9 = ["CONFIG_CHANGE"] := by
  simp [eventTypesInOrder, ccEvents9, ccEvent]

theorem countType_cc4 : countType ccEvents4 "CONFIG_CHANGE" = 4 := by
  simp [countType, ccEvents4, ccEvent]

theorem countType_cc9 : countType ccEvents9 "CONFIG_CHANGE" = 9 := by
  simp [countType, ccEvents9, ccEvent]

theorem analyze_cc4 :
    analyze_patterns uuidNat ccEvents4
      = [{ pattern_id := uuidNat 0, pattern_type := "CONFIG_CHANGE",
           confidence := 2/5, event_count := 4,
           description := "Elevated CONFIG_CHANGE activity detected" }] := by
  rw [analyze_patterns, eventTypes_cc4, analyzeAux, countType_cc4]
  rw [if_pos (by norm_num)]
  rw [analyzeAux]
  norm_num [min_def]
  decide

theorem analyze_cc9 :
    analyze_patterns uuidNat ccEvents9
      = [{ pattern_id := uuidNat 0, pattern_type := "CONFIG_CHANGE",
           confidence := 9/10, event_count := 9,
           description := "Elevated CONFIG_CHANGE activity detected" }] := by
  rw [analyze_patterns, eventTypes_cc9, analyzeAux, countType_cc9]
  rw [if_pos (by norm_num)]
  rw [analyzeAux]
  norm_num [min_def]
  decide

/-- C3: patterns are emitted for exactly the event-type groups with more
than 3 members (one pattern per group, groups in first-occurrence order,
types listed without duplicates), each with confidence
min(size × 0.1, 0.95); the coordinator promotes into the active-threats
map exactly the patterns with confidence strictly above 0.8, keyed by
pattern id; in particular 4 events of one type give one unpromoted pattern
of confidence 0.4 and 9 events give confidence 0.9 and promotion. -/
theorem analyzePatterns_emission_promotion (uuid : ℕ → String)
    (huuid : Function.Injective uuid) (events : List SecurityEvent)
    (active : List (String × ThreatPattern))
    (hfresh : ∀ p ∈ analyze_patterns uuid events, ∀ q ∈ active,
        p.pattern_id ≠ q.1) :
    ((analyze_patterns uuid events).map (fun p => p.pattern_type)
        = (eventTypesInOrder events).filter
            (fun t => decide (3 < countType events t)))
      ∧ (∀ t, t ∈ eventTypesInOrder events ↔ ∃ e ∈ events, e.event_type = t)
      ∧ (eventTypesInOrder events).Nodup
      ∧ (∀ p ∈ analyze_patterns uuid events,
          p.confidence
              = min ((countType events p.pattern_type : ℚ) * (1/10)) (95/100)
            ∧ p.event_count = countType events p.pattern_type
            ∧ 3 < countType events p.pattern_type)
      ∧ promoteThreats active (analyze_patterns uuid events)
          = active
            ++ ((analyze_patterns uuid events).filter
                (fun p => decide ((8:ℚ)/10 < p.confidence))).map
                  (fun p => (p.pattern_id, p))
      ∧ analyze_patterns uuidNat ccEvents4
          = [{ pattern_id := uuidNat 0, pattern_type := "CONFIG_CHANGE",
               confidence := 2/5, event_count := 4,
               description := "Elevated CONFIG_CHANGE activity detected" }]
      ∧ promoteThreats [] (analyze_patterns uuidNat ccEvents4) = []
      ∧ analyze_patterns uuidNat ccEvents9
          = [{ pattern_id := uuidNat 0, pattern_type := "CONFIG_CHANGE",
               confidence := 9/10, event_count := 9,
               description := "Elevated CONFIG_CHANGE activity detected" }]
      ∧ promoteThreats [] (analyze_patterns uuidNat ccEvents9)
          = [(uuidNat 0,
              { pattern_id := uuidNat 0, pattern_type := "CONFIG_CHANGE",
                confidence := 9/10, event_count := 9,
                description := "Elevated CONFIG_CHANGE activity detected" })] := by
  refine ⟨analyzeAux_map_type uuid events (eventTypesInOrder events) 0,
    fun t => mem_eventTypesFold events [] t |>.trans (by simp),
    nodup_eventTypesFold events [] (List.nodup_nil),
    ?_, ?_, analyze_cc4, ?_, analyze_cc9, ?_⟩
  · intro p hp
    obtain ⟨c1, c2, c3, _⟩ := analyzeAux_mem uuid events
      (eventTypesInOrder events) 0 p hp
    exact ⟨c1, c2, c3⟩
  · exact promoteThreats_eq (analyze_patterns uuid events) active hfresh
      (analyzeAux_ids_nodup uuid huuid events (eventTypesInOrder events) 0)
  · rw [analyze_cc4]
    simp only [promoteThreats, List.foldl_cons, List.foldl_nil]
    rw [if_neg (by norm_num)]
  · rw [analyze_cc9]
    simp only [promoteThreats, List.foldl_cons, List.foldl_nil]
    rw [if_pos (by norm_num)]
    rfl

/-- Witness for C3: the id supply is injective and the active map empty, so
the theorem applies; the 4-event example stays unpromoted while the 9-event
example is promoted. -/
theorem analyzePatterns_emission_promotion_witness :
    promoteThreats [] (analyze_patterns uuidNat ccEvents4) = []
      ∧ promoteThreats [] (analyze_patterns uuidNat ccEvents9)
          = [(uuidNat 0,
              { pattern_id := uuidNat 0, pattern_type := "CONFIG_CHANGE",
                confidence := 9/10, event_count := 9,
                description := "Elevated CONFIG_CHANGE activity detected" })] := by
  have huuid : Function.Injective uuidNat := by
    intro a b hab
    have hlen := congrArg (fun s => s.data.length) hab
    simpa [uuidNat] using hlen
  have h := analyzePatterns_emission_promotion uuidNat huuid ccEvents4 []
    (by intro p _ q hq; simp at hq)
  exact ⟨h.2.2.2.2.2.2.1, h.2.2.2.2.2.2.2.2⟩

/-! ## Monitoring loops (`_monitor_cloud_resources`,
`_monitor_ai_model_health`) and internally generated platform events -/

/-- The shared state a monitoring cycle touches: the bounded event history
and the response orchestrator's queue. -/
structure CycleState where
  security_events : List SecurityEvent
  response_queue : List SecurityEvent

/-- `_create_security_event`: platform events are created with severity
HIGH, internal source, platform target, and the dataclass defaults
`ai_confidence = 0.0` and `is_anomaly = False`.  (The opaque raw payload is
modelled by its string entries.) -/
def _create_security_event (now : ℤ) (uid : String) (event_type : String)
    (description : String) (provider : CloudProvider)
    (data : List (String × String)) : SecurityEvent :=
  { id := uid, timestamp := now, event_type := event_type,
    severity := "HIGH", source_ip := "internal",
    target_resource := "platform", description := description,
    provider := provider, raw_data := data }

/-- `self.security_events.append(event)` for a platform event: the bounded
history grows, the response queue is untouched. -/
def appendPlatformEvent (st : CycleState) (e : SecurityEvent) : CycleState :=
  { st with
      security_events := appendEvent historyCapacity st.security_events e }

/-- State update of one resource iteration: a HIGH_RISK_RESOURCE platform
event is recorded when the score exceeds the 0.7 threshold. -/
def resourceStepState (uuid : ℕ → String) (now : ℤ) (r : CloudResource)
    (s : ℚ) (st : CycleState) (i : ℕ) : CycleState :=
  if (7:ℚ)/10 < s then
    appendPlatformEvent st
      (_create_security_event now (uuid i) "HIGH_RISK_RESOURCE"
        ("High risk resource detected: " ++ r.name) r.provider
        [("resource_id", r.id)])
  else st

/-- One `_monitor_cloud_resources` scoring pass over a provider's resource
list: score each resource in order, record HIGH_RISK_RESOURCE events for
scores above 0.7, and abort the pass on the first scoring exception, which
the loop-level `except` then catches (the Boolean flag).  Returns the
resource list (scored prefix, untouched suffix), the state, and the flag. -/
def monitorResourcesCycle (assess : CloudResource → Option ℚ)
    (uuid : ℕ → String) (now : ℤ) :
    List CloudResource → CycleState → ℕ →
      List CloudResource × CycleState × Bool
  | [], st, _ => ([], st, false)
  | r :: rs, st, i =>
      match _calculate_risk_score now assess r with
      | none => (r :: rs, st, true)
      | some s =>
          match monitorResourcesCycle assess uuid now rs
              (resourceStepState uuid now r s st i) (i + 1) with
          | (rs', st', err) => ({ r with risk_score := s } :: rs', st', err)

/-- State update of one model-health iteration: MODEL_DRIFT above the 0.3
drift threshold, then MODEL_ATTACK above the 10 adversarial attempts. -/
def modelStepState (uuid : ℕ → String) (now : ℤ) (m : String)
    (metrics : AIModelMetrics) (st : CycleState) (i : ℕ) : CycleState :=
  let st1 := if (3:ℚ)/10 < metrics.drift_score then
      appendPlatformEvent st
        (_create_security_event now (uuid i) "MODEL_DRIFT"
          ("AI model drift detected: " ++ m) CloudProvider.aws
          [("model", m)])
    else st
  if 10 < metrics.adversarial_attempts then
    appendPlatformEvent st1
      (_create_security_event now (uuid (i + 1)) "MODEL_ATTACK"
        ("Adversarial attacks on model: " ++ m) CloudProvider.aws
        [("model", m)])
  else st1

/-- One `_monitor_ai_model_health` pass over the configured models: check
each model in order, record drift/attack platform events, and abort the
whole pass on the first failing health check (caught by the loop-level
`except`).  Returns the completed checks, the state, and the error flag. -/
def monitorModelHealthCycle (check : String → Option AIModelMetrics)
    (uuid : ℕ → String) (now : ℤ) :
    List String → CycleState → ℕ →
      List (String × AIModelMetrics) × CycleState × Bool
  | [], st, _ => ([], st, false)
  | m :: ms, st, i =>
      match check m with
      | none => ([], st, true)
      | some metrics =>
          match monitorModelHealthCycle check uuid now ms
              (modelStepState uuid now m metrics st i) (i + 2) with
          | (checked, st', err) => ((m, metrics) :: checked, st', err)

theorem appendPlatformEvent_queue (st : CycleState) (e : SecurityEvent) :
    (appendPlatformEvent st e).response_queue = st.response_queue := rfl

theorem resourceStepState_queue (uuid : ℕ → String) (now : ℤ)
    (r : CloudResource) (s : ℚ) (st : CycleState) (i : ℕ) :
    (resourceStepState uuid now r s st i).response_queue
      = st.response_queue := by
  unfold resourceStepState
  split <;> rfl

theorem modelStepState_queue (uuid : ℕ → String) (now : ℤ) (m : String)
    (metrics : AIModelMetrics) (st : CycleState) (i : ℕ) :
    (modelStepState uuid now m metrics st i).response_queue
      = st.response_queue := by
  unfold modelStepState
  split <;> split <;> rfl

theorem monitorResourcesCycle_queue (assess : CloudResource → Option ℚ)
    (uuid : ℕ → String) (now : ℤ) (rs : List CloudResource) :
    ∀ (st : CycleState) (i : ℕ),
    (monitorResourcesCycle assess uuid now rs st i).2.1.response_queue
      = st.response_queue := by
  induction rs with
  | nil => intro st i; rfl
  | cons r rs ih =>
      intro st i
      simp only [monitorResourcesCycle]
      cases h : _calculate_risk_score now assess r with
      | none => rfl
      | some s =>
          have hq := ih (resourceStepState uuid now r s st i) (i + 1)
          simpa [resourceStepState_queue] using hq

theorem monitorModelHealthCycle_queue (check : String → Option AIModelMetrics)
    (uuid : ℕ → String) (now : ℤ) (ms : List String) :
    ∀ (st : CycleState) (i : ℕ),
    (monitorModelHealthCycle check uuid now ms st i).2.1.response_queue
      = st.response_queue := by
  induction ms with
  | nil => intro st i; rfl
  | cons m ms ih =>
      intro st i
      simp only [monitorModelHealthCycle]
      cases h : check m with
      | none => rfl
      | some metrics =>
          have hq := ih (modelStepState uuid now m metrics st i) (i + 2)
          simpa [modelStepState_queue] using hq

theorem mem_of_mem_appendEvent {cap : ℕ} {hist : List SecurityEvent}
    {e x : SecurityEvent} (hx : x ∈ appendEvent cap hist e) :
    x ∈ hist ∨ x = e := by
  simp only [appendEvent] at hx
  split at hx
  · have := List.mem_of_mem_tail hx
    simpa using this
  · simpa using hx

theorem monitorResourcesCycle_events (assess : CloudResource → Option ℚ)
    (uuid : ℕ → String) (now : ℤ) (rs : List CloudResource) :
    ∀ (st : CycleState) (i : ℕ) (e : SecurityEvent),
    e ∈ (monitorResourcesCycle assess uuid now rs st i).2.1.security_events →
      e ∈ st.security_events
        ∨ (e.severity = "HIGH" ∧ e.ai_confidence = 0 ∧ e.is_anomaly = false
            ∧ e.event_type = "HIGH_RISK_RESOURCE") := by
  induction rs with
  | nil => intro st i e he; exact Or.inl he
  | cons r rs ih =>
      intro st i e he
      simp only [monitorResourcesCycle] at he
      rcases hc : _calculate_risk_score now assess r with _ | s
      · rw [hc] at he
        exact Or.inl he
      · rw [hc] at he
        rcases ih (resourceStepState uuid now r s st i) (i + 1) e he with h1 | h2
        · unfold resourceStepState at h1
          by_cases hp : (7:ℚ)/10 < s
          · rw [if_pos hp] at h1
            rcases mem_of_mem_appendEvent h1 with h3 | h3
            · exact Or.inl h3
            · subst h3
              exact Or.inr ⟨rfl, rfl, rfl, rfl⟩
          · rw [if_neg hp] at h1
            exact Or.inl h1
        · exact Or.inr h2

theorem monitorModelHealthCycle_events (check : String → Option AIModelMetrics)
    (uuid : ℕ → String) (now : ℤ) (ms : List String) :
    ∀ (st : CycleState) (i : ℕ) (e : SecurityEvent),
    e ∈ (monitorModelHealthCycle check uuid now ms st i).2.1.security_events →
      e ∈ st.security_events
        ∨ (e.severity = "HIGH" ∧ e.ai_confidence = 0 ∧ e.is_anomaly = false
            ∧ (e.event_type = "MODEL_DRIFT" ∨ e.event_type = "MODEL_ATTACK")) := by
  induction ms with
  | nil => intro st i e he; exact Or.inl he
  | cons m ms ih =>
      intro st i e he
      simp only [monitorModelHealthCycle] at he
      rcases hc : check m with _ | metrics
      · rw [hc] at he
        exact Or.inl he
      · rw [hc] at he
        rcases ih (modelStepState uuid now m metrics st i) (i + 2) e he
          with h1 | h2
        · simp only [modelStepState] at h1
          by_cases hatk : 10 < metrics.adversarial_attempts
          · rw [if_pos hatk] at h1
            rcases mem_of_mem_appendEvent h1 with h3 | h3
            · by_cases hdr : (3:ℚ)/10 < metrics.drift_score
              · rw [if_pos hdr] at h3
                rcases mem_of_mem_appendEvent h3 with h4 | h4
                · exact Or.inl h4
                · subst h4
                  exact Or.inr ⟨rfl, rfl, rfl, Or.inl rfl⟩
              · rw [if_neg hdr] at h3
                exact Or.inl h3
            · subst h3
              exact Or.inr ⟨rfl, rfl, rfl, Or.inr rfl⟩
          · rw [if_neg hatk] at h1
            by_cases hdr : (3:ℚ)/10 < metrics.drift_score
            · rw [if_pos hdr] at h1
              rcases mem_of_mem_appendEvent h1 with h3 | h3
              · exact Or.inl h3
              · subst h3
                exact Or.inr ⟨rfl, rfl, rfl, Or.inl rfl⟩
            · rw [if_neg hdr] at h1
              exact Or.inl h1
        · exact Or.inr h2

/-- Resources that contribute no configuration risk factor: one security
group, a non-public tag, freshly accessed. -/
def quietResource (i : ℕ) : CloudResource :=
  { id := "q-" ++ toString i
    name := "quiet-" ++ toString i
    type := "EC2Instance"
    provider := CloudProvider.aws
    region := "us-east-1"
    security_group_ids := ["sg-1"]
    tags := [("Environment", "production")]
    last_accessed := 1080 }

theorem quietResource_score (i : ℕ) :
    _calculate_risk_score 1080 (fun _ => some (1/4)) (quietResource i)
      = some (1/4) := by
  have hcond0 : (([("Environment", "production")]
        : List (String × String)).map Prod.snd).any
      (fun tag => lower tag == "public" || lower tag == "open") = false := by
    decide
  have hp : _check_public_access (quietResource i) = 0 := by
    simp only [_check_public_access, quietResource, hcond0]
    rfl
  have hd : daysSinceAccess 1080 (quietResource i) = 0 := by
    simp [daysSinceAccess, quietResource]
  simp only [_calculate_risk_score, Option.map_some', Option.some.injEq,
    riskFactors, hp, hd]
  norm_num [quietResource, min_def, List.sum_append]

/-- C7 counterexample: with a failing model, the scorer yields no score at
all for the first resource, the cycle returns with both resources unscored
and the error flagged, while the same cycle with a working model scores
both resources. -/
theorem model_failure_aborts_scoring :
    _calculate_risk_score 1080 (fun _ => none) (quietResource 1) = none
      ∧ monitorResourcesCycle (fun _ => none) uuidNat 1080
          [quietResource 1, quietResource 2] ⟨[], []⟩ 0
          = ([quietResource 1, quietResource 2], ⟨[], []⟩, true)
      ∧ (monitorResourcesCycle (fun _ => some (1/4)) uuidNat 1080
            [quietResource 1, quietResource 2] ⟨[], []⟩ 0).1
          = [{ quietResource 1 with risk_score := 1/4 },
             { quietResource 2 with risk_score := 1/4 }] := by
  refine ⟨rfl, rfl, ?_⟩
  simp only [monitorResourcesCycle, quietResource_score 1,
    quietResource_score 2, resourceStepState]

/-- C7 (amended): when the AI model call fails for a resource, the scorer
yields no (degraded) score for that resource and the cycle aborts: the
failing resource and every later resource keep their previous risk scores
and the shared state is untouched; the error is flagged for the loop-level
handler, which catches it and retries next period, so the monitoring loop
itself survives (the cycle returns normally instead of crashing). -/
theorem riskScore_model_failure_behavior (assess : CloudResource → Option ℚ)
    (uuid : ℕ → String) (now : ℤ) (r : CloudResource)
    (rs : List CloudResource) (st : CycleState) (i : ℕ)
    (hfail : assess r = none) :
    _calculate_risk_score now assess r = none
      ∧ monitorResourcesCycle assess uuid now (r :: rs) st i
          = (r :: rs, st, true) := by
  have hnone : _calculate_risk_score now assess r = none := by
    simp [_calculate_risk_score, hfail]
  refine ⟨hnone, ?_⟩
  simp only [monitorResourcesCycle, hnone]

/-- Witness for the amended C7: a model that always fails makes the cycle
over the two quiet resources return unchanged with the error flag. -/
theorem riskScore_model_failure_behavior_witness :
    _calculate_risk_score 1080 (fun _ => none) (quietResource 1) = none
      ∧ monitorResourcesCycle (fun _ => none) uuidNat 1080
          [quietResource 1, quietResource 2] ⟨[], []⟩ 0
          = ([quietResource 1, quietResource 2], ⟨[], []⟩, true) :=
  riskScore_model_failure_behavior (fun _ => none) uuidNat 1080
    (quietResource 1) [quietResource 2] ⟨[], []⟩ 0 rfl

/-- Metrics below both escalation thresholds. -/
def okMetrics : AIModelMetrics :=
  { model_id := "m-ok", accuracy := 9/10, drift_score := 1/10,
    last_training := 0, prediction_confidence := 4/5,
    adversarial_attempts := 0 }

/-- A health check that errors for the network anomaly model only. -/
def failingCheck (m : String) : Option AIModelMetrics :=
  if m = "network_anomaly" then none else some okMetrics

/-- C8 counterexample: the user-behavior model's check would succeed, yet
when the network-anomaly check errors first, the cycle records no check at
all — the second model is not checked in that cycle; with no failure, both
models are checked. -/
theorem model_check_failure_skips_others :
    failingCheck "user_behavior" = some okMetrics
      ∧ monitorModelHealthCycle failingCheck uuidNat 0
          ["network_anomaly", "user_behavior"] ⟨[], []⟩ 0
          = ([], ⟨[], []⟩, true)
      ∧ (monitorModelHealthCycle (fun _ => some okMetrics) uuidNat 0
            ["network_anomaly", "user_behavior"] ⟨[], []⟩ 0).1
          = [("network_anomaly", okMetrics), ("user_behavior", okMetrics)] := by
  refine ⟨rfl, rfl, ?_⟩
  have hdr : ¬((3:ℚ)/10 < okMetrics.drift_score) := by
    have h : okMetrics.drift_score = 1/10 := rfl
    rw [h]; norm_num
  have hatk : ¬((10:ℤ) < okMetrics.adversarial_attempts) := by
    have h : okMetrics.adversarial_attempts = 0 := rfl
    rw [h]; norm_num
  simp [monitorModelHealthCycle, modelStepState, hdr, hatk]

/-- C8 (amended): a health check that errors for one model aborts the
remaining checks of that same cycle — the batch is atomic in failure; the
error is caught by the loop-level handler, so the loop survives and retries
every model on the next period. -/
theorem modelHealth_failure_aborts_batch (check : String → Option AIModelMetrics)
    (uuid : ℕ → String) (now : ℤ) (m : String) (ms : List String)
    (st : CycleState) (i : ℕ) (hfail : check m = none) :
    monitorModelHealthCycle check uuid now (m :: ms) st i = ([], st, true) := by
  simp only [monitorModelHealthCycle, hfail]

/-- Witness for the amended C8: the failing network-anomaly check empties
the whole batch. -/
theorem modelHealth_failure_aborts_batch_witness :
    monitorModelHealthCycle failingCheck uuidNat 0
        ["network_anomaly", "user_behavior"] ⟨[], []⟩ 0
      = ([], ⟨[], []⟩, true) :=
  modelHealth_failure_aborts_batch failingCheck uuidNat 0 "network_anomaly"
    ["user_behavior"] ⟨[], []⟩ 0 rfl

/-- C10: internally generated platform events carry severity HIGH,
ai_confidence 0.0 and is_anomaly False; the two monitoring loops append
them to the bounded event history only and never touch the response queue,
so platform events are never submitted to the response orchestrator. -/
theorem platform_events_high_never_queued (assess : CloudResource → Option ℚ)
    (check : String → Option AIModelMetrics) (uuid : ℕ → String) (now : ℤ)
    (rs : List CloudResource) (ms : List String) (st : CycleState) (i : ℕ) :
    (∀ (uid et desc : String) (p : CloudProvider)
        (data : List (String × String)),
        (_create_security_event now uid et desc p data).severity = "HIGH"
          ∧ (_create_security_event now uid et desc p data).ai_confidence = 0
          ∧ (_create_security_event now uid et desc p data).is_anomaly = false)
      ∧ (monitorResourcesCycle assess uuid now rs st i).2.1.response_queue
          = st.response_queue
      ∧ (monitorModelHealthCycle check uuid now ms st i).2.1.response_queue
          = st.response_queue
      ∧ (∀ e,
          e ∈ (monitorResourcesCycle assess uuid now rs st i).2.1.security_events →
          e ∈ st.security_events
            ∨ (e.severity = "HIGH" ∧ e.ai_confidence = 0 ∧ e.is_anomaly = false
                ∧ e.event_type = "HIGH_RISK_RESOURCE"))
      ∧ (∀ e,
          e ∈ (monitorModelHealthCycle check uuid now ms st i).2.1.security_events →
          e ∈ st.security_events
            ∨ (e.severity = "HIGH" ∧ e.ai_confidence = 0 ∧ e.is_anomaly = false
                ∧ (e.event_type = "MODEL_DRIFT"
                    ∨ e.event_type = "MODEL_ATTACK"))) :=
  ⟨fun _ _ _ _ _ => ⟨rfl, rfl, rfl⟩,
   monitorResourcesCycle_queue assess uuid now rs st i,
   monitorModelHealthCycle_queue check uuid now ms st i,
   fun e he => monitorResourcesCycle_events assess uuid now rs st i e he,
   fun e he => monitorModelHealthCycle_events check uuid now ms st i e he⟩

/-- The platform event generated when the example resource scores 1. -/
def highRiskPlatformEvent : SecurityEvent :=
  _create_security_event 1080 (uuidNat 0) "HIGH_RISK_RESOURCE"
    ("High risk resource detected: " ++ exampleResource.name)
    exampleResource.provider [("resource_id", exampleResource.id)]

theorem resourcesCycle_example :
    monitorResourcesCycle (fun _ => some (1/2)) uuidNat 1080 [exampleResource]
        ⟨[], [neutralEvent]⟩ 0
      = ([{ exampleResource with risk_score := 1 }],
         ⟨[highRiskPlatformEvent], [neutralEvent]⟩, false) := by
  have hd : daysSinceAccess 1080 exampleResource = 45 := by decide
  have hsum : (riskFactors 1080 exampleResource (1/2)).sum = 3/2 := by
    simp only [riskFactors, hd, exampleResource_public]
    norm_num [exampleResource, List.sum_append]
  have hcalc : _calculate_risk_score 1080 (fun _ => some (1/2)) exampleResource
      = some 1 := by
    simp only [_calculate_risk_score, Option.map_some', Option.some.injEq, hsum]
    exact min_eq_right (by norm_num)
  have hpos : (7:ℚ)/10 < 1 := by norm_num
  simp only [monitorResourcesCycle, hcalc, resourceStepState, if_pos hpos,
    appendPlatformEvent, appendEvent, historyCapacity, highRiskPlatformEvent]
  norm_num

/-- Witness for C10: the example cycle appends exactly the HIGH-severity
platform event to the history while leaving the response queue as it was. -/
theorem platform_events_high_never_queued_witness :
    (monitorResourcesCycle (fun _ => some (1/2)) uuidNat 1080 [exampleResource]
        ⟨[], [neutralEvent]⟩ 0).2.1.response_queue = [neutralEvent]
      ∧ highRiskPlatformEvent.severity = "HIGH"
      ∧ highRiskPlatformEvent.ai_confidence = 0
      ∧ highRiskPlatformEvent.is_anomaly = false
      ∧ highRiskPlatformEvent.event_type = "HIGH_RISK_RESOURCE" := by
  have h := platform_events_high_never_queued (fun _ => some (1/2))
    (fun _ => none) uuidNat 1080 [exampleResource] [] ⟨[], [neutralEvent]⟩ 0
  refine ⟨h.2.1, ?_⟩
  have hmem : highRiskPlatformEvent
      ∈ (monitorResourcesCycle (fun _ => some (1/2)) uuidNat 1080
          [exampleResource] ⟨[], [neutralEvent]⟩ 0).2.1.security_events := by
    rw [resourcesCycle_example]
    exact List.mem_singleton_self _
  rcases h.2.2.2.1 highRiskPlatformEvent hmem with h1 | h2
  · simp at h1
  · exact ⟨h2.1, h2.2.1, h2.2.2.1, h2.2.2.2⟩

/-! ## Dashboard snapshot (`get_dashboard_data`) -/

/-- `BaseAIModel`: the attributes every model object carries.  The dashboard
never reads any of them. -/
structure BaseAIModel where
  model_id : String
  last_training : ℤ
  accuracy : ℚ

/-- The Guardian state read by `get_dashboard_data`. -/
structure GuardianState where
  resources_cache : List (CloudProvider × List CloudResource)
  security_events : List SecurityEvent
  active_threats : List (String × ThreatPattern)
  ai_models : List (String × BaseAIModel)

/-- The dictionary returned by `get_dashboard_data`. -/
structure DashboardData where
  total_resources : ℕ
  active_threats : ℕ
  recent_events : ℕ
  high_risk_resources : ℕ
  ai_model_health : List (String × String)
  cloud_coverage : List CloudProvider
  threat_trends : List (String × ℕ)

/-- `_calculate_threat_trends`: per-type counts of the recent events, keys
in first-occurrence order. -/
def _calculate_threat_trends (events : List SecurityEvent) :
    List (String × ℕ) :=
  (eventTypesInOrder events).map (fun t => (t, countType events t))

/-- `get_dashboard_data`: the read-only dashboard aggregate.  The
`ai_model_health` field maps every configured model name to the constant
string "healthy". -/
def get_dashboard_data (now : ℤ) (g : GuardianState) : DashboardData :=
  let recent := g.security_events.filter
    (fun e => decide (now - 24 < e.timestamp))
  { total_resources := (g.resources_cache.map (fun pr => pr.2.length)).sum
    active_threats := g.active_threats.length
    recent_events := recent.length
    high_risk_resources :=
      ((g.resources_cache.map Prod.snd).flatten.filter
        (fun r => decide ((7:ℚ)/10 < r.risk_score))).length
    ai_model_health := g.ai_models.map (fun m => (m.1, "healthy"))
    cloud_coverage := g.resources_cache.map Prod.fst
    threat_trends := _calculate_threat_trends recent }

theorem lookupAL_const_map {α : Type} (l : List (String × α)) (c : String)
    (name : String) (h : name ∈ l.map Prod.fst) :
    lookupAL (l.map (fun m => (m.1, c))) name = some c := by
  induction l with
  | nil => simp at h
  | cons m rest ih =>
      simp only [List.map_cons, lookupAL]
      by_cases he : m.1 = name
      · rw [if_pos he]
      · rw [if_neg he]
        apply ih
        simp only [List.map_cons, List.mem_cons] at h
        rcases h with rfl | h2
        · exact absurd rfl he
        · exact h2

/-- C9: in every state, the dashboard's `ai_model_health` field is the
constant map sending each configured model name to "healthy", so looking up
any configured model yields "healthy" regardless of the model objects (and
of any metrics, which are never stored in the state at all). -/
theorem dashboard_model_health_constant (now : ℤ) (g : GuardianState) :
    (get_dashboard_data now g).ai_model_health
        = g.ai_models.map (fun m => (m.1, "healthy"))
      ∧ ∀ name, name ∈ g.ai_models.map Prod.fst →
          lookupAL (get_dashboard_data now g).ai_model_health name
            = some "healthy" :=
  ⟨rfl, fun name h => lookupAL_const_map g.ai_models "healthy" name h⟩

/-- A concrete Guardian state with two configured models. -/
def sampleGuardian : GuardianState :=
  { resources_cache := [(CloudProvider.aws, [exampleResource])]
    security_events := [neutralEvent]
    active_threats := []
    ai_models := [("network_anomaly", ⟨"m-net", 0, 9/10⟩),
                  ("user_behavior", ⟨"m-user", 0, 4/5⟩)] }

/-- Witness for C9: the lookup of a configured model name in the sample
state evaluates to "healthy". -/
theorem dashboard_model_health_constant_witness :
    lookupAL (get_dashboard_data 1080 sampleGuardian).ai_model_health
        "network_anomaly" = some "healthy" :=
  (dashboard_model_health_constant 1080 sampleGuardian).2 "network_anomaly"
    (by simp [sampleGuardian])

end SecureCloud
